import Mathlib

/-!
Verification development for the in-browser performance-telemetry overlay.

The definitions below are shallow embeddings of the overlay's source:

* the metrics collector in src/debug/BrowserPerformanceTest.tsx
  (both file variants: the synchronous layout-shift sum and the
  observer-based asynchronous one);
* the chart component in src/debug/PerformanceCharts.tsx (resource
  aggregation, the CPU worker message handler, clear-history, and the
  structured-data export);
* the windowed sampling-loop variant of the chart component
  (updateMemoryUsage with a 30 s retention window);
* the CPU worker (calculateCPULoad with exponential smoothing).

JavaScript numbers are modelled as integers where the source only ever
produces integers (Date.now, Math.round results, transferSize) and as
rationals elsewhere.  Math.round, toFixed(3) and the falsy-or idiom are
modelled explicitly.  JSON.stringify / JSON.parse are modelled at the
level of a JSON value tree: serialization builds the tree the source
builds (dropping keys whose value is undefined, as JSON.stringify does),
and parsing reads it back.
-/

/-- JavaScript Math.round: round half toward positive infinity. -/
def jsRound (q : ℚ) : ℤ := ⌊q + 1/2⌋

/-- JavaScript Number.prototype.toFixed(3), returned as an integer count
of thousandths (the digits of the produced decimal string). -/
def toFixed3 (q : ℚ) : ℤ := ⌊q * 1000 + 1/2⌋

/-! ### Metrics collector: memory block (BrowserPerformanceTest.measureMemory) -/

/-- The collector's memory block, in whole megabytes. -/
structure MemoryBlock where
  usedJSHeapSize : ℤ
  totalJSHeapSize : ℤ
  jsHeapSizeLimit : ℤ
deriving DecidableEq

/-- measureMemory, capability-present branch: each heap byte count is
divided by 1024*1024 and passed through Math.round. -/
def measureMemory (usedBytes totalBytes limitBytes : ℤ) : MemoryBlock where
  usedJSHeapSize := jsRound ((usedBytes : ℚ) / (1024 * 1024))
  totalJSHeapSize := jsRound ((totalBytes : ℚ) / (1024 * 1024))
  jsHeapSizeLimit := jsRound ((limitBytes : ℚ) / (1024 * 1024))

/-! ### Metrics collector: paint timing (BrowserPerformanceTest.measurePageLoad) -/

/-- A firstPaint / firstContentfulPaint field: a millisecond duration or
the "Not available" sentinel. -/
inductive PaintValue where
  | notAvailable
  | time (t : ℚ)
deriving DecidableEq

/-- The source idiom x || "Not available": an absent entry yields the
sentinel, and so does a present entry whose startTime is 0, because 0 is
falsy. -/
def paintValueOf (x : Option ℚ) : PaintValue :=
  match x with
  | none => PaintValue.notAvailable
  | some t => if t = 0 then PaintValue.notAvailable else PaintValue.time t

/-- firstPaint field of measurePageLoad: getEntriesByType("paint")[0]?.startTime
fed through the falsy-or. -/
def firstPaintOf (paintStartTimes : List ℚ) : PaintValue :=
  paintValueOf paintStartTimes[0]?

/-- firstContentfulPaint field of measurePageLoad:
getEntriesByType("paint")[1]?.startTime fed through the falsy-or. -/
def firstContentfulPaintOf (paintStartTimes : List ℚ) : PaintValue :=
  paintValueOf paintStartTimes[1]?

/-! ### Metrics collector: layout shift (measureLayoutMetrics, both variants) -/

/-- One buffered "layout-shift" entry. -/
structure ShiftEntry where
  value : ℚ
  hadRecentInput : Bool
deriving DecidableEq

/-- Synchronous variant of measureLayoutMetrics: reduce over ALL buffered
entries, sum += shift.value with no hadRecentInput test, then toFixed(3). -/
def cumulativeLayoutShiftSync (entries : List ShiftEntry) : ℤ :=
  toFixed3 (entries.foldl (fun sum e => sum + e.value) 0)

/-- The asynchronous variant's result: the "Not supported" sentinel or a
cumulative layout shift fixed to 3 decimals. -/
inductive CLSResult where
  | notSupported
  | cls (thousandths : ℤ)
deriving DecidableEq

/-- Asynchronous variant of measureLayoutMetrics: if the observer
capability is absent the sentinel is set; otherwise the observer callback
accumulates clsValue += entry.value exactly for entries with
hadRecentInput false, and the final value is fixed to 3 decimals. -/
def measureLayoutMetricsAsync (hasObserver : Bool) (entries : List ShiftEntry) : CLSResult :=
  if hasObserver then
    CLSResult.cls (toFixed3 (entries.foldl
      (fun clsValue e => if e.hadRecentInput then clsValue else clsValue + e.value) 0))
  else CLSResult.notSupported

/-- The value the specification asks for: the sum of exactly the buffered
entries whose hadRecentInput flag is false, rounded to 3 decimals.
This is the spec's wording, kept separate so the code-derived variants
can be compared against it. -/
def clsOfQualifying (entries : List ShiftEntry) : ℤ :=
  toFixed3 ((entries.filter (fun e => !e.hadRecentInput)).foldl (fun sum e => sum + e.value) 0)

/-! ### CPU worker (cpuWorker.ts, calculateCPULoad) -/

/-- One smoothing step of calculateCPULoad:
lastUsage = usage * 0.1 + lastUsage * 0.9. -/
def smoothStep (lastUsage usage : ℚ) : ℚ := usage * (1/10) + lastUsage * (9/10)

/-- The smoothed value the worker posts after consuming the given
instantaneous readings in order, starting from the seed 0. -/
def smoothedAfter (readings : List ℚ) : ℚ := readings.foldl smoothStep 0

/-! ### GPU estimator (PerformanceCharts.estimateGPUUsage) -/

/-- estimateGPUUsage: with a null context the function returns 0 before
reaching the benchmark; otherwise the measured upload time (ms) is
normalized against the 16.67 ms frame budget and clamped to 100. -/
def estimateGPUUsage (gl : Option Unit) (elapsed : ℚ) : ℚ :=
  match gl with
  | none => 0
  | some _ => min 100 (elapsed / (1667/100) * 100)

/-! ### Chart time-series state (PerformanceCharts) -/

/-- A point of the memory-only time series. -/
structure MemoryDataPoint where
  timestamp : ℤ
  usedHeap : ℤ
  totalHeap : ℤ
deriving DecidableEq

/-- A point of the combined performance series. -/
structure PerformanceDataPoint where
  timestamp : ℤ
  usedHeap : ℤ
  totalHeap : ℤ
  cpuUsage : ℚ
  gpuUsage : ℚ
deriving DecidableEq

/-- The chart component's mutable state: the two series plus the time
origin used to format timestamps. -/
structure ChartState where
  memoryTimeSeries : List MemoryDataPoint
  performanceData : List PerformanceDataPoint
  baseTime : ℤ
deriving DecidableEq

/-- Timestamp order on memory points. -/
def memTsLE (a b : MemoryDataPoint) : Prop := a.timestamp ≤ b.timestamp

instance : DecidableRel memTsLE :=
  fun a b => inferInstanceAs (Decidable (a.timestamp ≤ b.timestamp))

/-- updateMemoryUsage of the windowed sampling-loop variant: append the
new point, then keep exactly the points satisfying
point.timestamp > Date.now() - 30000. -/
def updateMemoryUsage (prev : List MemoryDataPoint) (now usedMB totalMB : ℤ) :
    List MemoryDataPoint :=
  (prev ++ [MemoryDataPoint.mk now usedMB totalMB]).filter
    (fun p => decide (now - 30000 < p.timestamp))

/-- cpuWorker.onmessage: if the combined series has a last point, replace
it by a copy whose cpuUsage is the received estimate; with an empty
series the state is returned unchanged. -/
def onCpuMessage (v : ℚ) (s : ChartState) : ChartState :=
  match s.performanceData.getLast? with
  | none => s
  | some lastPoint =>
      { s with performanceData :=
          s.performanceData.dropLast ++ [{ lastPoint with cpuUsage := v }] }

/-- clearHistory: reset both series to empty and rebase the time origin
to the clear instant. -/
def clearHistory (now : ℤ) (s : ChartState) : ChartState :=
  { memoryTimeSeries := [], performanceData := [], baseTime := now }

/-! ### Resource aggregation (PerformanceCharts resourceData) -/

/-- One collected resource entry, in discovery order. -/
structure Resource where
  name : String
  rtype : String
  duration : ℤ
  size : ℤ
deriving DecidableEq

/-- Comparator order used by resourceData: the sort comparator
(a, b) => b.duration - a.duration keeps a before b iff
b.duration ≤ a.duration (descending, ties stay put). -/
def byDuration (a b : Resource) : Prop := b.duration ≤ a.duration

instance : DecidableRel byDuration :=
  fun a b => inferInstanceAs (Decidable (b.duration ≤ a.duration))

instance : IsTotal Resource byDuration := ⟨fun a b => le_total b.duration a.duration⟩

instance : IsTrans Resource byDuration := ⟨fun _ _ _ h1 h2 => le_trans h2 h1⟩

/-- resourceData as the source computes it: slice(0, 10) FIRST, then a
stable sort by descending duration (the runtime's Array.prototype.sort is
stable, modelled by insertion sort). -/
def resourceData (resources : List Resource) : List Resource :=
  List.insertionSort byDuration (resources.take 10)

/-- The series the specification describes: stable-sort ALL resources by
descending duration, then take the top 10.  Kept separate so it can be
compared with the code's resourceData. -/
def topTenByDuration (resources : List Resource) : List Resource :=
  (List.insertionSort byDuration resources).take 10

/-! ### Structured-data export (PerformanceCharts.exportToJson) -/

/-- A JSON value tree, the image of JSON.stringify and the domain of
JSON.parse. -/
inductive Json where
  | null
  | num (q : ℚ)
  | str (s : String)
  | arr (elements : List Json)
  | obj (members : List (String × Json))

/-- One timing bar passed to export (timingData entries: Math.round makes
the time an integer). -/
structure TimingMetric where
  name : String
  time : ℤ
deriving DecidableEq

/-- One memory datum passed to export; the value is absent when the host
exposes no heap API. -/
structure MemoryDatum where
  name : String
  value : Option ℤ
deriving DecidableEq

/-- The record serialized by exportToJson. -/
structure ExportData where
  timestamp : String
  timingMetrics : List TimingMetric
  memoryData : List MemoryDatum
  resourceData : List Resource
  performanceData : List PerformanceDataPoint
deriving DecidableEq

/-- Serialization of a timing bar. -/
def encodeTimingMetric (t : TimingMetric) : Json :=
  Json.obj [("name", Json.str t.name), ("time", Json.num (t.time : ℚ))]

/-- Deserialization of a timing bar. -/
def decodeTimingMetric : Json → Option TimingMetric
  | Json.obj [("name", Json.str n), ("time", Json.num t)] =>
      if t.den = 1 then some ⟨n, t.num⟩ else none
  | _ => none

/-- Serialization of a memory datum.  JSON.stringify drops a key whose
value is undefined, so an absent value produces a one-member object. -/
def encodeMemoryDatum (m : MemoryDatum) : Json :=
  Json.obj (("name", Json.str m.name) ::
    (match m.value with
     | none => []
     | some v => [("value", Json.num (v : ℚ))]))

/-- Deserialization of a memory datum: a missing "value" key reads back
as an absent value, matching JavaScript property access. -/
def decodeMemoryDatum : Json → Option MemoryDatum
  | Json.obj [("name", Json.str n)] => some ⟨n, none⟩
  | Json.obj [("name", Json.str n), ("value", Json.num q)] =>
      if q.den = 1 then some ⟨n, some q.num⟩ else none
  | _ => none

/-- Serialization of a resource entry. -/
def encodeResource (r : Resource) : Json :=
  Json.obj [("name", Json.str r.name), ("type", Json.str r.rtype),
    ("duration", Json.num (r.duration : ℚ)), ("size", Json.num (r.size : ℚ))]

/-- Deserialization of a resource entry. -/
def decodeResource : Json → Option Resource
  | Json.obj [("name", Json.str n), ("type", Json.str ty),
      ("duration", Json.num d), ("size", Json.num sz)] =>
      if d.den = 1 ∧ sz.den = 1 then some ⟨n, ty, d.num, sz.num⟩ else none
  | _ => none

/-- Serialization of a combined-series point. -/
def encodePerformancePoint (p : PerformanceDataPoint) : Json :=
  Json.obj [("timestamp", Json.num (p.timestamp : ℚ)),
    ("usedHeap", Json.num (p.usedHeap : ℚ)), ("totalHeap", Json.num (p.totalHeap : ℚ)),
    ("cpuUsage", Json.num p.cpuUsage), ("gpuUsage", Json.num p.gpuUsage)]

/-- Deserialization of a combined-series point. -/
def decodePerformancePoint : Json → Option PerformanceDataPoint
  | Json.obj [("timestamp", Json.num ts), ("usedHeap", Json.num uh),
      ("totalHeap", Json.num th), ("cpuUsage", Json.num cu), ("gpuUsage", Json.num gu)] =>
      if ts.den = 1 ∧ uh.den = 1 ∧ th.den = 1 then
        some ⟨ts.num, uh.num, th.num, cu, gu⟩
      else none
  | _ => none

/-- Deserialize every element of a JSON array, failing if any element
fails. -/
def decodeAll (dec : Json → Option α) : List Json → Option (List α)
  | [] => some []
  | j :: rest =>
      match dec j with
      | none => none
      | some a =>
          match decodeAll dec rest with
          | none => none
          | some as => some (a :: as)

/-- exportToJson's serialization: the JSON value JSON.stringify produces
from the exportData record. -/
def encodeExport (d : ExportData) : Json :=
  Json.obj [("timestamp", Json.str d.timestamp),
    ("timingMetrics", Json.arr (d.timingMetrics.map encodeTimingMetric)),
    ("memoryData", Json.arr (d.memoryData.map encodeMemoryDatum)),
    ("resourceData", Json.arr (d.resourceData.map encodeResource)),
    ("performanceData", Json.arr (d.performanceData.map encodePerformancePoint))]

/-- Deserialization of the exported blob back into the record. -/
def decodeExport : Json → Option ExportData
  | Json.obj [("timestamp", Json.str ts),
      ("timingMetrics", Json.arr tj), ("memoryData", Json.arr mj),
      ("resourceData", Json.arr rj), ("performanceData", Json.arr pj)] =>
      match decodeAll decodeTimingMetric tj, decodeAll decodeMemoryDatum mj,
          decodeAll decodeResource rj, decodeAll decodePerformancePoint pj with
      | some t, some m, some r, some p => some ⟨ts, t, m, r, p⟩
      | _, _, _, _ => none
  | _ => none

/-! ### ISO-8601 timestamps (Date.prototype.toISOString) -/

/-- A broken-down UTC instant as Date exposes it. -/
structure DateFields where
  year : ℕ
  month : ℕ
  day : ℕ
  hour : ℕ
  minute : ℕ
  second : ℕ
  millisecond : ℕ
deriving DecidableEq

/-- Field ranges of a real calendar instant. -/
def ValidDate (f : DateFields) : Prop :=
  f.year ≤ 9999 ∧ 1 ≤ f.month ∧ f.month ≤ 12 ∧ 1 ≤ f.day ∧ f.day ≤ 31 ∧
    f.hour ≤ 23 ∧ f.minute ≤ 59 ∧ f.second ≤ 59 ∧ f.millisecond ≤ 999

instance (f : DateFields) : Decidable (ValidDate f) :=
  inferInstanceAs (Decidable (_ ∧ _))

/-- The decimal digit character for d. -/
def digitChar (d : ℕ) : Char := Char.ofNat (48 + d)

/-- Numeric value of a digit character. -/
def charVal (c : Char) : ℕ := c.toNat - 48

/-- Two-digit zero-padded decimal. -/
def pad2 (n : ℕ) : List Char := [digitChar (n / 10), digitChar (n % 10)]

/-- Three-digit zero-padded decimal. -/
def pad3 (n : ℕ) : List Char :=
  [digitChar (n / 100), digitChar (n / 10 % 10), digitChar (n % 10)]

/-- Four-digit zero-padded decimal. -/
def pad4 (n : ℕ) : List Char :=
  [digitChar (n / 1000), digitChar (n / 100 % 10), digitChar (n / 10 % 10), digitChar (n % 10)]

/-- Date.prototype.toISOString's character sequence:
YYYY-MM-DDTHH:MM:SS.mmmZ. -/
def toISOChars (f : DateFields) : List Char :=
  pad4 f.year ++ '-' :: pad2 f.month ++ '-' :: pad2 f.day ++
    'T' :: pad2 f.hour ++ ':' :: pad2 f.minute ++ ':' :: pad2 f.second ++
    '.' :: pad3 f.millisecond ++ ['Z']

/-- The timestamp string exportToJson stores: new Date().toISOString(). -/
def isoTimestamp (f : DateFields) : String := String.mk (toISOChars f)

/-- Range check on a two-digit decimal field. -/
def twoDigitInRange (lo hi : ℕ) (c1 c2 : Char) : Bool :=
  decide (lo ≤ charVal c1 * 10 + charVal c2) &&
    decide (charVal c1 * 10 + charVal c2 ≤ hi)

/-- A syntactic ISO-8601 extended-format validity check: 24 characters,
digits and separators in place, and the month, day, hour, minute and
second fields in range. -/
def isISO8601Chars : List Char → Bool
  | [y1, y2, y3, y4, q1, m1, m2, q2, d1, d2, tc, h1, h2, c1, mi1, mi2, c2,
      s1, s2, dc, a1, a2, a3, zc] =>
      [q1, q2] == ['-', '-'] &&
        [tc, c1, c2, dc, zc] == ['T', ':', ':', '.', 'Z'] &&
        [y1, y2, y3, y4, m1, m2, d1, d2, h1, h2, mi1, mi2, s1, s2, a1, a2, a3].all
          Char.isDigit &&
        twoDigitInRange 1 12 m1 m2 &&
        twoDigitInRange 1 31 d1 d2 &&
        twoDigitInRange 0 23 h1 h2 &&
        twoDigitInRange 0 59 mi1 mi2 &&
        twoDigitInRange 0 59 s1 s2
  | _ => false

/-- ISO-8601 validity of a string. -/
def isISO8601 (s : String) : Bool := isISO8601Chars s.data

/-! ### Concrete inputs used by the theorems below -/

/-- Eleven resources in discovery order: ten quick ones followed by one
slow one. -/
def elevenResources : List Resource :=
  [⟨"r0", "script", 1, 0⟩, ⟨"r1", "script", 1, 0⟩, ⟨"r2", "script", 1, 0⟩,
   ⟨"r3", "script", 1, 0⟩, ⟨"r4", "script", 1, 0⟩, ⟨"r5", "script", 1, 0⟩,
   ⟨"r6", "script", 1, 0⟩, ⟨"r7", "script", 1, 0⟩, ⟨"r8", "script", 1, 0⟩,
   ⟨"r9", "script", 1, 0⟩, ⟨"slow", "script", 100, 0⟩]

/-- The spec's stability fixture: durations 5, 50, 5, 100 in discovery
order. -/
def stabilityExample : List Resource :=
  [⟨"a", "script", 5, 10⟩, ⟨"b", "script", 50, 10⟩,
   ⟨"c", "script", 5, 10⟩, ⟨"d", "script", 100, 10⟩]

/-- A one-point combined series for exercising the CPU patch. -/
def samplePoint : PerformanceDataPoint := ⟨1000, 50, 120, 10, 20⟩

/-- Chart state holding that one point. -/
def sampleChart : ChartState := ⟨[], [samplePoint], 0⟩

/-- A concrete export instant. -/
def sampleDate : DateFields := ⟨2026, 10, 12, 7, 30, 5, 250⟩

/-- A concrete export record. -/
def sampleExport : ExportData :=
  { timestamp := isoTimestamp sampleDate
    timingMetrics := [⟨"Total Load", 123⟩, ⟨"DOM Content", 85⟩]
    memoryData := [⟨"Used Heap", some 100⟩, ⟨"Heap Limit", none⟩]
    resourceData := [⟨"app.js", "script", 42, 1024⟩]
    performanceData := [⟨1700000000000, 100, 200, 12, 34⟩] }

/-! ### Helper lemmas -/

/-- Filtering a timestamp-sorted series by a lower cutoff removes a
prefix only: the survivors are a suffix of the original list. -/
theorem filter_suffix_of_sorted (cutoff : ℤ) :
    ∀ l : List MemoryDataPoint, l.Sorted memTsLE →
      List.IsSuffix (l.filter (fun p => decide (cutoff < p.timestamp))) l := by
  intro l
  induction l with
  | nil => intro _; simp
  | cons a l ih =>
    intro hs
    by_cases ha : cutoff < a.timestamp
    · have hall : ∀ p ∈ a :: l, (fun p => decide (cutoff < p.timestamp)) p = true := by
        intro p hp
        rcases List.mem_cons.mp hp with h | h
        · subst h; simpa using ha
        · have := List.rel_of_sorted_cons hs p h
          simp only [decide_eq_true_eq]
          exact lt_of_lt_of_le ha this
      rw [List.filter_eq_self.mpr hall]
    · rw [List.filter_cons_of_neg (by simpa using ha)]
      exact (ih hs.of_cons).trans (List.suffix_cons a l)

/-- The observer callback's guarded accumulation equals folding over the
qualifying entries. -/
theorem foldl_shift_guard (entries : List ShiftEntry) (init : ℚ) :
    entries.foldl
        (fun clsValue e => if e.hadRecentInput then clsValue else clsValue + e.value) init =
      (entries.filter (fun e => !e.hadRecentInput)).foldl (fun sum e => sum + e.value) init := by
  induction entries generalizing init with
  | nil => rfl
  | cons a l ih =>
      cases ha : a.hadRecentInput <;>
        simp [List.foldl, List.filter_cons, ha, ih]

/-! ### Claim theorems -/

/-- Claim C1 counterexample: the chart aggregator slices the first 10
resources in discovery order BEFORE sorting, so for eleven resources
whose slowest entry is discovered last, the produced series is not the
top-10 slice of the duration-sorted resources. -/
theorem resourceData_differs_from_top10 :
    resourceData elevenResources ≠ topTenByDuration elevenResources := by
  decide

/-- Claim C1 (amended): the resource series is the first-10
discovery-order slice of the snapshot's resources, stably sorted by
descending duration: it is a permutation of that slice, sorted
descending, coincides with the spec's sort-then-slice reading whenever
the snapshot has at most 10 resources, and on the durations
[5, 50, 5, 100] produces [100, 50, 5(first), 5(second)], ties keeping
discovery order. -/
theorem resourceData_first_slice_sorted (l : List Resource) :
    (resourceData l).Perm (l.take 10) ∧
    (resourceData l).Sorted byDuration ∧
    (l.length ≤ 10 → resourceData l = topTenByDuration l) ∧
    resourceData stabilityExample =
      [⟨"d", "script", 100, 10⟩, ⟨"b", "script", 50, 10⟩,
       ⟨"a", "script", 5, 10⟩, ⟨"c", "script", 5, 10⟩] := by
  refine ⟨List.perm_insertionSort byDuration (l.take 10),
    List.sorted_insertionSort byDuration (l.take 10), fun hlen => ?_, by decide⟩
  unfold resourceData topTenByDuration
  rw [List.take_of_length_le hlen,
    List.take_of_length_le (by rw [List.length_insertionSort]; exact hlen)]

/-- Claim C1 (amended) witness: the stability fixture has at most 10
resources, and on it the code's series equals the sort-then-slice
reading. -/
theorem resourceData_first_slice_sorted_witness :
    stabilityExample.length ≤ 10 ∧
    resourceData stabilityExample = topTenByDuration stabilityExample :=
  ⟨by decide, (resourceData_first_slice_sorted stabilityExample).2.2.1 (by decide)⟩

/-- Claim C2 counterexample: the synchronous collector variant sums ALL
buffered layout-shift entries, so a single entry with value 1 and
hadRecentInput = true yields 1.000 while the sum of qualifying entries is
0.000. -/
theorem cls_sync_counts_recent_input :
    cumulativeLayoutShiftSync [ShiftEntry.mk 1 true] ≠
      clsOfQualifying [ShiftEntry.mk 1 true] := by
  have h1 : cumulativeLayoutShiftSync [ShiftEntry.mk 1 true] = 1000 := by
    simp only [cumulativeLayoutShiftSync, List.foldl]
    norm_num [toFixed3]
  have h2 : clsOfQualifying [ShiftEntry.mk 1 true] = 0 := by
    simp only [clsOfQualifying, List.filter, List.foldl]
    norm_num [toFixed3]
  rw [h1, h2]
  decide

/-- Claim C2 (amended): the asynchronous variant's cumulativeLayoutShift
equals the sum of exactly the entries with hadRecentInput = false,
rounded to 3 decimals, and is the "Not supported" sentinel (never a
number) when the observer capability is absent; the synchronous variant
instead sums every buffered entry regardless of hadRecentInput, so it
agrees with the qualifying-sum reading only when no buffered entry has
recent input. -/
theorem cls_variants_characterized (entries : List ShiftEntry) :
    measureLayoutMetricsAsync true entries = CLSResult.cls (clsOfQualifying entries) ∧
    measureLayoutMetricsAsync false entries = CLSResult.notSupported ∧
    cumulativeLayoutShiftSync entries =
      toFixed3 (entries.foldl (fun sum e => sum + e.value) 0) ∧
    ((∀ e ∈ entries, e.hadRecentInput = false) →
      cumulativeLayoutShiftSync entries = clsOfQualifying entries) := by
  refine ⟨?_, rfl, rfl, fun hall => ?_⟩
  · simp only [measureLayoutMetricsAsync, if_true, clsOfQualifying, CLSResult.cls.injEq]
    exact congrArg toFixed3 (foldl_shift_guard entries 0)
  · have hfix : entries.filter (fun e => !e.hadRecentInput) = entries :=
      List.filter_eq_self.mpr (fun e he => by simp [hall e he])
    simp only [cumulativeLayoutShiftSync, clsOfQualifying, hfix]

/-- Claim C2 (amended) witness: on a one-entry buffer without recent
input, the synchronous sum coincides with the qualifying sum. -/
theorem cls_variants_characterized_witness :
    (∀ e ∈ [ShiftEntry.mk 1 false], e.hadRecentInput = false) ∧
    cumulativeLayoutShiftSync [ShiftEntry.mk 1 false] =
      clsOfQualifying [ShiftEntry.mk 1 false] :=
  ⟨by decide, (cls_variants_characterized [ShiftEntry.mk 1 false]).2.2.2 (by decide)⟩

/-- Claim C4: the worker's smoothing recurrence
lastUsage = 0.1 * usage + 0.9 * lastUsage is seeded at 0, so the value
posted after one tick with instantaneous reading r1 is 0.1 * r1, and
after a second tick with reading r2 it is 0.1 * r2 + 0.9 * (0.1 * r1). -/
theorem cpu_smoothing_first_two_ticks (r1 r2 : ℚ) :
    smoothedAfter [r1] = (1/10) * r1 ∧
    smoothedAfter [r1, r2] = (1/10) * r2 + (9/10) * ((1/10) * r1) := by
  constructor <;> (simp only [smoothedAfter, List.foldl, smoothStep]; ring)

/-- Claim C5: estimateGPUUsage returns exactly 0 on a null context
without consulting the measured time, returns
min(100, elapsed / 16.67 * 100) on a live context, and for any
non-negative elapsed time its result lies in [0, 100]. -/
theorem estimateGPUUsage_zero_and_bounds :
    (∀ elapsed : ℚ, estimateGPUUsage none elapsed = 0) ∧
    (∀ elapsed : ℚ, estimateGPUUsage (some ()) elapsed =
      min 100 (elapsed / (1667/100) * 100)) ∧
    (∀ (gl : Option Unit) (elapsed : ℚ), 0 ≤ elapsed →
      0 ≤ estimateGPUUsage gl elapsed ∧ estimateGPUUsage gl elapsed ≤ 100) := by
  refine ⟨fun _ => rfl, fun _ => rfl, fun gl elapsed he => ?_⟩
  cases gl with
  | none => exact ⟨le_refl 0, by norm_num [estimateGPUUsage]⟩
  | some u =>
      constructor
      · simp only [estimateGPUUsage]
        exact le_min (by norm_num) (by positivity)
      · simp only [estimateGPUUsage]
        exact min_le_left _ _

/-- Claim C5 witness: at elapsed = 5 ms with a live context the estimate
is within [0, 100]. -/
theorem estimateGPUUsage_zero_and_bounds_witness :
    (0 : ℚ) ≤ 5 ∧ 0 ≤ estimateGPUUsage (some ()) 5 ∧
      estimateGPUUsage (some ()) 5 ≤ 100 :=
  ⟨by decide, (estimateGPUUsage_zero_and_bounds.2.2 (some ()) 5 (by decide)).1,
    (estimateGPUUsage_zero_and_bounds.2.2 (some ()) 5 (by decide)).2⟩

/-- Claim C6: in the windowed sampling-loop variant, appending a point
and pruning keeps exactly the points newer than the 30 s cutoff, removes
only a prefix (never reordering survivors), and on points at 0 s, 10 s,
20 s with a new point at 31 s retains exactly 10 s, 20 s, 31 s in order. -/
theorem updateMemoryUsage_window (prev : List MemoryDataPoint) (now usedMB totalMB : ℤ)
    (hsorted : prev.Sorted memTsLE) (hle : ∀ p ∈ prev, p.timestamp ≤ now) :
    List.IsSuffix (updateMemoryUsage prev now usedMB totalMB)
        (prev ++ [MemoryDataPoint.mk now usedMB totalMB]) ∧
    (∀ p, p ∈ updateMemoryUsage prev now usedMB totalMB ↔
      (p ∈ prev ++ [MemoryDataPoint.mk now usedMB totalMB] ∧
        now - 30000 < p.timestamp)) ∧
    updateMemoryUsage [⟨0, 5, 9⟩, ⟨10000, 6, 9⟩, ⟨20000, 7, 9⟩] 31000 8 9 =
      [⟨10000, 6, 9⟩, ⟨20000, 7, 9⟩, ⟨31000, 8, 9⟩] := by
  have hfull : (prev ++ [MemoryDataPoint.mk now usedMB totalMB]).Sorted memTsLE :=
    List.pairwise_append.mpr ⟨hsorted, List.pairwise_singleton _ _,
      fun a ha b hb => by
        rcases List.mem_singleton.mp hb with rfl
        exact hle a ha⟩
  refine ⟨filter_suffix_of_sorted _ _ hfull, fun p => ?_, by decide⟩
  simp [updateMemoryUsage, List.mem_filter]
  constructor
  · rintro (⟨hp, hc⟩ | rfl)
    · exact ⟨Or.inl hp, hc⟩
    · exact ⟨Or.inr rfl, by show now - 30000 < now; omega⟩
  · rintro ⟨hp | rfl, hc⟩
    · exact Or.inl ⟨hp, hc⟩
    · exact Or.inr rfl

/-- Claim C6 witness: the scenario of the claim, with its hypotheses
discharged on the concrete series. -/
theorem updateMemoryUsage_window_witness :
    List.IsSuffix (updateMemoryUsage [⟨0, 5, 9⟩, ⟨10000, 6, 9⟩, ⟨20000, 7, 9⟩] 31000 8 9)
        ([⟨0, 5, 9⟩, ⟨10000, 6, 9⟩, ⟨20000, 7, 9⟩] ++ [MemoryDataPoint.mk 31000 8 9]) ∧
    (MemoryDataPoint.mk 0 5 9 ∈ updateMemoryUsage
        [⟨0, 5, 9⟩, ⟨10000, 6, 9⟩, ⟨20000, 7, 9⟩] 31000 8 9 ↔
      (MemoryDataPoint.mk 0 5 9 ∈
          [⟨0, 5, 9⟩, ⟨10000, 6, 9⟩, ⟨20000, 7, 9⟩] ++ [MemoryDataPoint.mk 31000 8 9] ∧
        (31000 : ℤ) - 30000 < 0)) :=
  ⟨(updateMemoryUsage_window [⟨0, 5, 9⟩, ⟨10000, 6, 9⟩, ⟨20000, 7, 9⟩] 31000 8 9
      (by decide) (by decide)).1,
    (updateMemoryUsage_window [⟨0, 5, 9⟩, ⟨10000, 6, 9⟩, ⟨20000, 7, 9⟩] 31000 8 9
      (by decide) (by decide)).2.1 (MemoryDataPoint.mk 0 5 9)⟩

/-- Claim C7: clearHistory empties both series, rebases the time origin
to the clear instant, is idempotent, and on an already-empty state
changes nothing but the time origin. -/
theorem clearHistory_resets_and_idempotent (now now2 : ℤ) (s : ChartState) :
    (clearHistory now s).memoryTimeSeries = [] ∧
    (clearHistory now s).performanceData = [] ∧
    (clearHistory now s).baseTime = now ∧
    clearHistory now2 (clearHistory now s) = clearHistory now2 s ∧
    (s.memoryTimeSeries = [] → s.performanceData = [] →
      clearHistory now s = { s with baseTime := now }) := by
  refine ⟨rfl, rfl, rfl, rfl, fun h1 h2 => ?_⟩
  cases s with
  | mk mts pd bt => simp_all [clearHistory]

/-- Claim C7 witness: clearing an empty state only rebases the origin. -/
theorem clearHistory_resets_and_idempotent_witness :
    clearHistory 5 (ChartState.mk [] [] 0) =
      { ChartState.mk [] [] 0 with baseTime := 5 } :=
  (clearHistory_resets_and_idempotent 5 0 (ChartState.mk [] [] 0)).2.2.2.2 rfl rfl

/-- Claim C8: a CPU estimate message patches only the most recently
appended point of the combined series — the memory series, the time
origin, the series length and every earlier point are unchanged, the last
point keeps all fields but cpuUsage — and on an empty series the state is
returned unchanged. -/
theorem onCpuMessage_patches_last (v : ℚ) (s : ChartState) :
    (s.performanceData = [] → onCpuMessage v s = s) ∧
    ∀ h : s.performanceData ≠ [],
      (onCpuMessage v s).memoryTimeSeries = s.memoryTimeSeries ∧
      (onCpuMessage v s).baseTime = s.baseTime ∧
      (onCpuMessage v s).performanceData.length = s.performanceData.length ∧
      (onCpuMessage v s).performanceData.dropLast = s.performanceData.dropLast ∧
      (onCpuMessage v s).performanceData.getLast? =
        some { s.performanceData.getLast h with cpuUsage := v } := by
  constructor
  · intro he
    simp [onCpuMessage, he]
  · intro h
    have hdef : onCpuMessage v s =
        { s with performanceData := s.performanceData.dropLast ++
            [{ s.performanceData.getLast h with cpuUsage := v }] } := by
      simp [onCpuMessage, List.getLast?_eq_getLast _ h]
    rw [hdef]
    have hpos : 0 < s.performanceData.length := List.length_pos.mpr h
    refine ⟨rfl, rfl, ?_, List.dropLast_concat, List.getLast?_concat _⟩
    simp only [List.length_append, List.length_dropLast, List.length_cons,
      List.length_nil]
    omega

/-- Claim C8 witness: patching the one-point sample chart rewrites that
point's cpuUsage to the received estimate. -/
theorem onCpuMessage_patches_last_witness :
    sampleChart.performanceData ≠ [] ∧
    (onCpuMessage 33 sampleChart).performanceData.getLast? =
      some { sampleChart.performanceData.getLast (by decide) with cpuUsage := 33 } :=
  ⟨by decide, ((onCpuMessage_patches_last 33 sampleChart).2 (by decide)).2.2.2.2⟩

/-- Claim C9: on heap bytes used = 104857600, total = 209715200,
limit = 2147483648 the collector's memory block is exactly
usedHeap = 100 MB, totalHeap = 200 MB, heapLimit = 2048 MB. -/
theorem measureMemory_mb_rounding :
    measureMemory 104857600 209715200 2147483648 = MemoryBlock.mk 100 200 2048 := by
  simp only [measureMemory, jsRound, MemoryBlock.mk.injEq]
  norm_num

/-- Claim C10: a first (or second) paint entry whose startTime is 0 is
recorded as the "Not available" sentinel, exactly as an absent entry is,
because 0 is falsy in the availability check. -/
theorem paint_zero_treated_as_absent (t : ℚ) (rest : List ℚ) :
    firstPaintOf (0 :: rest) = PaintValue.notAvailable ∧
    firstContentfulPaintOf (t :: 0 :: rest) = PaintValue.notAvailable ∧
    firstPaintOf [] = PaintValue.notAvailable ∧
    PaintValue.notAvailable ≠ PaintValue.time 0 := by
  refine ⟨?_, ?_, rfl, by decide⟩
  · simp [firstPaintOf, paintValueOf]
  · simp [firstContentfulPaintOf, paintValueOf]

/-! ### Round-trip lemmas for the structured-data export -/

/-- Timing bars deserialize back to themselves. -/
theorem decodeTimingMetric_encode (t : TimingMetric) :
    decodeTimingMetric (encodeTimingMetric t) = some t := by
  simp [decodeTimingMetric, encodeTimingMetric]

/-- Memory data deserialize back to themselves, in both the present- and
absent-value shapes. -/
theorem decodeMemoryDatum_encode (m : MemoryDatum) :
    decodeMemoryDatum (encodeMemoryDatum m) = some m := by
  cases m with
  | mk n v =>
      cases v with
      | none => simp [decodeMemoryDatum, encodeMemoryDatum]
      | some x => simp [decodeMemoryDatum, encodeMemoryDatum]

/-- Resource entries deserialize back to themselves. -/
theorem decodeResource_encode (r : Resource) :
    decodeResource (encodeResource r) = some r := by
  simp [decodeResource, encodeResource]

/-- Combined-series points deserialize back to themselves. -/
theorem decodePerformancePoint_encode (p : PerformanceDataPoint) :
    decodePerformancePoint (encodePerformancePoint p) = some p := by
  simp [decodePerformancePoint, encodePerformancePoint]

/-- Element-wise round trips lift to arrays. -/
theorem decodeAll_map_encode {α : Type} (dec : Json → Option α) (enc : α → Json)
    (h : ∀ a, dec (enc a) = some a) :
    ∀ l : List α, decodeAll dec (l.map enc) = some l
  | [] => rfl
  | a :: l => by
      simp [decodeAll, h a, decodeAll_map_encode dec enc h l]

/-- The export record deserializes back to itself. -/
theorem decodeExport_encode (d : ExportData) :
    decodeExport (encodeExport d) = some d := by
  simp [decodeExport, encodeExport,
    decodeAll_map_encode decodeTimingMetric encodeTimingMetric decodeTimingMetric_encode,
    decodeAll_map_encode decodeMemoryDatum encodeMemoryDatum decodeMemoryDatum_encode,
    decodeAll_map_encode decodeResource encodeResource decodeResource_encode,
    decodeAll_map_encode decodePerformancePoint encodePerformancePoint
      decodePerformancePoint_encode]

/-! ### ISO-8601 validity of the export timestamp -/

/-- The digit character of d < 10 passes isDigit. -/
theorem digitChar_isDigit {d : ℕ} (h : d ≤ 9) : (digitChar d).isDigit = true := by
  interval_cases d <;> decide

/-- The digit character of d < 10 reads back as d. -/
theorem charVal_digitChar {d : ℕ} (h : d ≤ 9) : charVal (digitChar d) = d := by
  interval_cases d <;> decide

/-- A two-digit rendering of n ≤ 99 passes the range check for any
bracketing bounds. -/
theorem twoDigitInRange_pad {lo hi n : ℕ} (hn : n ≤ 99) (hlo : lo ≤ n) (hhi : n ≤ hi) :
    twoDigitInRange lo hi (digitChar (n / 10)) (digitChar (n % 10)) = true := by
  simp only [twoDigitInRange, Bool.and_eq_true, decide_eq_true_eq,
    charVal_digitChar (show n / 10 ≤ 9 by omega),
    charVal_digitChar (show n % 10 ≤ 9 by omega)]
  omega

/-- toISOString of any in-range instant is a syntactically valid
ISO-8601 extended-format timestamp. -/
theorem isISO8601Chars_toISOChars (f : DateFields) (hf : ValidDate f) :
    isISO8601Chars (toISOChars f) = true := by
  obtain ⟨hy, hm1, hm2, hd1, hd2, hh, hmi, hsec, hms⟩ := hf
  simp only [toISOChars, pad4, pad3, pad2, List.cons_append, List.nil_append,
    isISO8601Chars, List.all_cons, List.all_nil, Bool.and_eq_true, beq_iff_eq,
    and_true]
  refine ⟨⟨⟨⟨⟨⟨trivial, ?_⟩, ?_⟩, ?_⟩, ?_⟩, ?_⟩, ?_⟩
  · exact ⟨digitChar_isDigit (by omega), digitChar_isDigit (by omega),
      digitChar_isDigit (by omega), digitChar_isDigit (by omega),
      digitChar_isDigit (by omega), digitChar_isDigit (by omega),
      digitChar_isDigit (by omega), digitChar_isDigit (by omega),
      digitChar_isDigit (by omega), digitChar_isDigit (by omega),
      digitChar_isDigit (by omega), digitChar_isDigit (by omega),
      digitChar_isDigit (by omega), digitChar_isDigit (by omega),
      digitChar_isDigit (by omega), digitChar_isDigit (by omega),
      digitChar_isDigit (by omega)⟩
  · exact twoDigitInRange_pad (by omega) hm1 hm2
  · exact twoDigitInRange_pad (by omega) hd1 hd2
  · exact twoDigitInRange_pad (by omega) (Nat.zero_le _) hh
  · exact twoDigitInRange_pad (by omega) (Nat.zero_le _) hmi
  · exact twoDigitInRange_pad (by omega) (Nat.zero_le _) hsec

/-- String-level form of the previous lemma. -/
theorem isISO8601_isoTimestamp (f : DateFields) (hf : ValidDate f) :
    isISO8601 (isoTimestamp f) = true :=
  isISO8601Chars_toISOChars f hf

/-- Claim C3: deserializing the exported blob reproduces the record that
was serialized — in particular the timingMetrics, memoryData and
resourceData arrays passed to export — and the top-level timestamp,
produced by toISOString at any in-range export instant, is a valid
ISO-8601 string. -/
theorem export_roundtrip_and_iso (d : ExportData) (f : DateFields)
    (hf : ValidDate f) (hts : d.timestamp = isoTimestamp f) :
    decodeExport (encodeExport d) = some d ∧
    (decodeExport (encodeExport d)).map ExportData.timingMetrics = some d.timingMetrics ∧
    (decodeExport (encodeExport d)).map ExportData.memoryData = some d.memoryData ∧
    (decodeExport (encodeExport d)).map ExportData.resourceData = some d.resourceData ∧
    isISO8601 d.timestamp = true := by
  have hrt := decodeExport_encode d
  refine ⟨hrt, ?_, ?_, ?_, ?_⟩
  · rw [hrt]; rfl
  · rw [hrt]; rfl
  · rw [hrt]; rfl
  · rw [hts]
    exact isISO8601_isoTimestamp f hf

/-- Claim C3 witness: the concrete export record round-trips and its
timestamp is valid ISO-8601. -/
theorem export_roundtrip_and_iso_witness :
    decodeExport (encodeExport sampleExport) = some sampleExport ∧
    (decodeExport (encodeExport sampleExport)).map ExportData.timingMetrics =
      some sampleExport.timingMetrics ∧
    (decodeExport (encodeExport sampleExport)).map ExportData.memoryData =
      some sampleExport.memoryData ∧
    (decodeExport (encodeExport sampleExport)).map ExportData.resourceData =
      some sampleExport.resourceData ∧
    isISO8601 sampleExport.timestamp = true :=
  export_roundtrip_and_iso sampleExport sampleDate (by decide) rfl
